import Mathlib

/-!
Verification of the MCP-style distributed RPC protocol core (auth provider,
dispatch server, pattern matching, client resilience layer).

The Python source is shallowly embedded: dictionaries become association
lists, wall-clock time and the HMAC-SHA256 primitive become explicit
parameters, exceptions become `Except`, and protobuf messages become
structures.  Strings that are only compared or concatenated stay `String`;
the subscription-pattern matcher, which slices strings, works on `List Char`
(the character sequence of a Python `str`).  Floating-point arithmetic in the
reconnect backoff is embedded as rational arithmetic (the values involved,
0.5 and the final product 0, are exact in both).
-/

/-- The registered client table of `AuthProvider.__init__`
(server/auth_provider.py): client id, API key, permission list. -/
def api_keys : List (String × String × List String) :=
  [("client1", "sk_client1_12345abcde", ["read", "write", "subscribe"]),
   ("client2", "sk_client2_67890fghij", ["read"])]

/-- Dictionary lookup `self.api_keys[client_id]`, as an association-list
lookup returning the key and permission list. -/
def lookupClient (client_id : String) : Option (String × List String) :=
  (api_keys.find? (fun e => e.1 = client_id)).map (fun e => e.2)

/-- `AuthProvider.authenticate` (server/auth_provider.py lines 22-36).
Python's `not api_key or api_key == ""` on a string argument is
`api_key = ""`. -/
def authenticate (client_id api_key : String) : Option (List String) :=
  if api_key = "" then
    some ["read", "write", "subscribe"]
  else
    match lookupClient client_id with
    | some (key, permissions) => if key = api_key then some permissions else none
    | none => none

/-- `AuthProvider.validate_signature` (server/auth_provider.py lines 38-75).
`hmacSha256 key message` stands for
`hmac.new(key.encode(), message.encode(), hashlib.sha256).hexdigest()`, and
`now` for `int(time.time())`; `hmac.compare_digest` is (constant-time) string
equality.  The inner `if client_id not in self.api_keys` of the source is
kept even though the first branch already returns on that condition. -/
def validate_signature (hmacSha256 : String → String → String) (now : Int)
    (client_id method_id : String) (timestamp : Int) (signature : String) : Bool :=
  if signature = "" ∨ lookupClient client_id = none then
    true
  else
    match lookupClient client_id with
    | none => false
    | some (api_key, _) =>
      let message := method_id ++ ":" ++ client_id ++ ":" ++ toString timestamp
      let expected_signature := hmacSha256 api_key message
      let valid := signature = expected_signature
      let timestamp_valid := (now - timestamp).natAbs < 300
      decide valid && decide timestamp_valid

/-- `AuthProvider.has_permission` (server/auth_provider.py lines 77-90). -/
def has_permission (client_id required_permission : String) : Bool :=
  match lookupClient client_id with
  | none => true
  | some (_, permissions) => permissions.contains required_permission

/-- The `MethodResponse.Status` enum of the protocol. -/
inductive Status where
  | SUCCESS
  | ERROR
  | NOT_FOUND
  | UNAUTHORIZED
deriving DecidableEq, Repr

/-- The `MethodRequest` protobuf message (§3 of the protocol): parameters
are an opaque byte payload, kept as a `String`. -/
structure MethodRequest where
  method_id : String
  parameters : String
  request_id : String
  client_id : String
  api_key : String
  timestamp : Int
  signature : String
deriving DecidableEq, Repr

/-- The `MethodResponse` protobuf message.  The Python constructor calls
either pass `result` (SUCCESS branch) or leave it unset; `result` is
therefore an `Option`, and an omitted `error_message` is the empty
string. -/
structure MethodResponse where
  request_id : String
  status : Status
  result : Option String
  error_message : String
deriving DecidableEq, Repr

/-- A registry entry of `DistributedServer.register_method`: the handler
models the whole guarded block `json.loads(parameters)` /
`handler(params, client_id=...)` / `json.dumps(result)` as one fallible
computation from the raw parameter payload and the client id to the raw
result payload (`Except.error e` is an exception with message `e`). -/
structure MethodInfo where
  handler : String → String → Except String String
  required_permission : String

/-- Registry lookup `request.method_id in self.methods` /
`self.methods[request.method_id]`. -/
def lookupMethod (methods : List (String × MethodInfo)) (method_id : String) :
    Option MethodInfo :=
  (methods.find? (fun e => e.1 = method_id)).map (fun e => e.2)

/-- `DistributedServer.InvokeMethod` (server/server.py lines 55-121):
authenticate, validate the signature, look the method up, check the
permission, then run the handler, mapping an exception to an ERROR
response. -/
def InvokeMethod (hmacSha256 : String → String → String) (now : Int)
    (methods : List (String × MethodInfo)) (request : MethodRequest) : MethodResponse :=
  match authenticate request.client_id request.api_key with
  | none =>
    { request_id := request.request_id, status := Status.UNAUTHORIZED,
      result := none, error_message := "Authentication failed" }
  | some _ =>
    if validate_signature hmacSha256 now request.client_id request.method_id
        request.timestamp request.signature then
      match lookupMethod methods request.method_id with
      | none =>
        { request_id := request.request_id, status := Status.NOT_FOUND,
          result := none,
          error_message := "Method " ++ request.method_id ++ " not found" }
      | some method_info =>
        if has_permission request.client_id method_info.required_permission then
          match method_info.handler request.parameters request.client_id with
          | Except.ok r =>
            { request_id := request.request_id, status := Status.SUCCESS,
              result := some r, error_message := "" }
          | Except.error e =>
            { request_id := request.request_id, status := Status.ERROR,
              result := none,
              error_message := "Error executing method: " ++ e }
        else
          { request_id := request.request_id, status := Status.UNAUTHORIZED,
            result := none,
            error_message := "Permission denied: " ++ method_info.required_permission
              ++ " required" }
    else
      { request_id := request.request_id, status := Status.UNAUTHORIZED,
        result := none, error_message := "Invalid request signature" }

/-- `DistributedServer._pattern_matches` (server/server.py lines 241-250),
on the character sequence of a Python string: `pattern == "*"`, then
`pattern.endswith("*")` with `event_type.startswith(pattern[:-1])`, then
exact equality. -/
def server_pattern_matches (event_type pattern : List Char) : Bool :=
  if pattern = ['*'] then
    true
  else if List.isSuffixOf ['*'] pattern then
    List.isPrefixOf pattern.dropLast event_type
  else
    event_type == pattern

/-- `DistributedClient._pattern_matches` (client/client.py lines 283-292),
textually identical to the server's matcher. -/
def client_pattern_matches (event_type pattern : List Char) : Bool :=
  if pattern = ['*'] then
    true
  else if List.isSuffixOf ['*'] pattern then
    List.isPrefixOf pattern.dropLast event_type
  else
    event_type == pattern

/-- The circuit-breaker states of client/client.py. -/
inductive CBState where
  | CLOSED
  | OPEN
  | HALF_OPEN
deriving DecidableEq, Repr

/-- `CircuitBreaker.__init__` state (client/client.py lines 15-22):
times are integers of `time.time()` seconds. -/
structure CircuitBreaker where
  failure_threshold : Nat
  reset_timeout : Int
  failure_count : Nat
  state : CBState
  last_failure_time : Int
deriving DecidableEq, Repr

/-- A `CircuitBreaker()` with the constructor defaults
(`failure_threshold=5`, `reset_timeout=30`). -/
def CircuitBreaker.default : CircuitBreaker :=
  { failure_threshold := 5, reset_timeout := 30, failure_count := 0,
    state := CBState.CLOSED, last_failure_time := 0 }

/-- The outcome of one `CircuitBreaker.execute` call: the wrapped function
was never invoked and `Exception("Circuit breaker is open")` was raised;
or it was invoked and returned; or it was invoked, raised, and the
exception was re-raised. -/
inductive CBResult where
  | circuitOpen
  | succeeded
  | reRaised
deriving DecidableEq, Repr

/-- The `try` block of `CircuitBreaker.execute`: run the wrapped call
(`callSucceeds` abstracts whether `func(*args, **kwargs)` returns or
raises) and update the breaker as the source does. -/
def CircuitBreaker.attemptCall (cb : CircuitBreaker) (now : Int)
    (callSucceeds : Bool) : CBResult × CircuitBreaker :=
  if callSucceeds then
    if cb.state = CBState.HALF_OPEN then
      (CBResult.succeeded, { cb with state := CBState.CLOSED, failure_count := 0 })
    else
      (CBResult.succeeded, cb)
  else
    let fc := cb.failure_count + 1
    let st := if cb.failure_threshold ≤ fc then CBState.OPEN else cb.state
    (CBResult.reRaised,
      { cb with failure_count := fc, last_failure_time := now, state := st })

/-- `CircuitBreaker.execute` (client/client.py lines 24-52): in OPEN state,
either move to HALF_OPEN when the reset timeout has strictly elapsed and
make the call, or raise immediately without calling. -/
def CircuitBreaker.execute (cb : CircuitBreaker) (now : Int)
    (callSucceeds : Bool) : CBResult × CircuitBreaker :=
  if cb.state = CBState.OPEN then
    if cb.reset_timeout < now - cb.last_failure_time then
      CircuitBreaker.attemptCall { cb with state := CBState.HALF_OPEN } now callSucceeds
    else
      (CBResult.circuitOpen, cb)
  else
    CircuitBreaker.attemptCall cb now callSucceeds

/-- Run a sequence of `execute` calls, each given as `(now, callSucceeds)`,
threading the breaker state. -/
def CircuitBreaker.runCalls (cb : CircuitBreaker) (calls : List (Int × Bool)) :
    CircuitBreaker :=
  calls.foldl (fun c nb => (CircuitBreaker.execute c nb.1 nb.2).2) cb

/-- What one `self.stub.InvokeMethod(request)` call does: return a
`MethodResponse`, or raise `grpc.RpcError` with message `msg`. -/
inductive RpcOutcome where
  | response (r : MethodResponse)
  | transportError (msg : String)

/-- A printable name for a status, standing for Python's `f"{response.status}"`
in the fallback error text (the generated enum value rendering). -/
def statusText : Status → String
  | Status.SUCCESS => "0"
  | Status.ERROR => "1"
  | Status.NOT_FOUND => "2"
  | Status.UNAUTHORIZED => "3"

/-- `response.error_message or f"Error status: {response.status}"`. -/
def errMsgOf (r : MethodResponse) : String :=
  if r.error_message = "" then "Error status: " ++ statusText r.status
  else r.error_message

/-- How `_send_method_request` terminates: returning the decoded result,
raising `Exception(msg)`, or letting a `grpc.RpcError` escape. -/
inductive SendOutcome where
  | ok (result : String)
  | raisedException (msg : String)
  | raisedRpcError (msg : String)
deriving DecidableEq, Repr

/-- Observable trace of one `_send_method_request` call: its outcome, how
many times `stub.InvokeMethod` ran, how many times `reconnect()` ran, and
whether `self.connected = False` was executed. -/
structure SendTrace where
  outcome : SendOutcome
  invoke_calls : Nat
  reconnect_calls : Nat
  marked_disconnected : Bool
deriving DecidableEq, Repr

/-- `DistributedClient._send_method_request` (client/client.py lines
199-226).  `stubResponses n` is what the (n+1)-th `stub.InvokeMethod(request)`
call does; `reconnectOk` is what `self.reconnect()` returns.  On SUCCESS the
source returns `json.loads(response.result)`, modelled as returning the raw
result payload. -/
def send_method_request (stubResponses : Nat → RpcOutcome) (reconnectOk : Bool) :
    SendTrace :=
  match stubResponses 0 with
  | RpcOutcome.response r =>
    if r.status = Status.SUCCESS then
      { outcome := SendOutcome.ok (r.result.getD ""), invoke_calls := 1,
        reconnect_calls := 0, marked_disconnected := false }
    else
      { outcome := SendOutcome.raisedException (errMsgOf r), invoke_calls := 1,
        reconnect_calls := 0, marked_disconnected := false }
  | RpcOutcome.transportError e =>
    if reconnectOk then
      match stubResponses 1 with
      | RpcOutcome.response r =>
        if r.status = Status.SUCCESS then
          { outcome := SendOutcome.ok (r.result.getD ""), invoke_calls := 2,
            reconnect_calls := 1, marked_disconnected := true }
        else
          { outcome := SendOutcome.raisedException (errMsgOf r), invoke_calls := 2,
            reconnect_calls := 1, marked_disconnected := true }
      | RpcOutcome.transportError e2 =>
        { outcome := SendOutcome.raisedRpcError e2, invoke_calls := 2,
          reconnect_calls := 1, marked_disconnected := true }
    else
      { outcome := SendOutcome.raisedException ("RPC failed: " ++ e),
        invoke_calls := 1, reconnect_calls := 1, marked_disconnected := true }

/-- `backoff = min(2 ** attempt, 60)` (client/client.py line 121). -/
def backoff_seconds (attempt : Nat) : Nat := min (2 ^ attempt) 60

/-- `jitter = backoff * 0.1 * (2 * (0.5 - 0.5))` (client/client.py line 122),
as exact rational arithmetic. -/
def jitter_seconds (backoff : ℚ) : ℚ := backoff * (1 / 10) * (2 * (1 / 2 - 1 / 2))

/-- `sleep_time = backoff + jitter` for a given attempt index. -/
def sleep_seconds (attempt : Nat) : ℚ :=
  (backoff_seconds attempt : ℚ) + jitter_seconds (backoff_seconds attempt : ℚ)

/-- The `for attempt in range(...)` loop body of `reconnect`:
`connectResults k` is what the (k+1)-th `self.connect()` call returns.
Returns (result, number of connect calls, sleep durations performed). -/
def reconnect_loop (connectResults : Nat → Bool) :
    Nat → Nat → Bool × Nat × List ℚ
  | _, 0 => (false, 0, [])
  | attempt, remaining + 1 =>
    if connectResults attempt then
      (true, 1, [])
    else
      let rest := reconnect_loop connectResults (attempt + 1) remaining
      (rest.1, rest.2.1 + 1, sleep_seconds attempt :: rest.2.2)

/-- `DistributedClient.reconnect` (client/client.py lines 110-129):
try `connect()` up to `reconnect_attempts` times, sleeping
`backoff + jitter` after every failed attempt, and report failure after
the last one. -/
def reconnect (connectResults : Nat → Bool) (reconnect_attempts : Nat) :
    Bool × Nat × List ℚ :=
  reconnect_loop connectResults 0 reconnect_attempts

/-- The request construction of `ServerConnection.invoke_method`
(client/multi_client.py lines 94-138): the effective client id is the
per-call override or the connection default, and `self.api_key or ""`
replaces an absent key by the empty string, both in the HMAC signing key
and in the request's `api_key` field. -/
def server_connection_build_request (hmacSha256 : String → String → String)
    (api_key : Option String) (client_id method_id parameters request_id : String)
    (timestamp : Int) : MethodRequest :=
  let message := method_id ++ ":" ++ client_id ++ ":" ++ toString timestamp
  { method_id := method_id, parameters := parameters, request_id := request_id,
    client_id := client_id, api_key := api_key.getD "",
    timestamp := timestamp, signature := hmacSha256 (api_key.getD "") message }

/-- The api_key with which `MultiServerClient.__init__` and
`MultiServerClient.add_server` (client/multi_client.py lines 161-184)
construct every `ServerConnection`: the literal `None`. -/
def multi_server_client_api_key : Option String := none

/-- A concrete stand-in for the HMAC-SHA256 hex digest, used to instantiate
the `hmacSha256` parameter on concrete inputs.  Like the real digest it is
injective in practice on the inputs used and never produces `""`. -/
def dummyHmac (key message : String) : String :=
  "HMAC(" ++ key ++ "|" ++ message ++ ")"

/-- A handler that returns a constant payload. -/
def constHandler (r : String) : String → String → Except String String :=
  fun _ _ => Except.ok r

/-- A handler that raises an exception with message `e`. -/
def raisingHandler (e : String) : String → String → Except String String :=
  fun _ _ => Except.error e

/-- A concrete method registry for instantiating theorems: a write-guarded
method and a read-guarded method whose handler raises. -/
def witnessMethods : List (String × MethodInfo) :=
  [("m", { handler := constHandler "42", required_permission := "write" }),
   ("boom", { handler := raisingHandler "kaboom", required_permission := "read" })]

/-- Left summand nonempty makes a string append nonempty. -/
theorem append_ne_empty_of_left (a b : String) (h : a ≠ "") : a ++ b ≠ "" := by
  intro hab
  apply h
  have : (a ++ b).length = 0 := by rw [hab]; rfl
  rw [String.length_append] at this
  have ha : a.length = 0 := Nat.eq_zero_of_add_eq_zero_right this
  cases a with
  | mk data =>
    cases data with
    | nil => rfl
    | cons c cs => simp [String.length] at ha

/-- Right summand nonempty makes a string append nonempty. -/
theorem append_ne_empty_of_right (a b : String) (h : b ≠ "") : a ++ b ≠ "" := by
  intro hab
  apply h
  have : (a ++ b).length = 0 := by rw [hab]; rfl
  rw [String.length_append] at this
  have hb : b.length = 0 := Nat.eq_zero_of_add_eq_zero_left this
  cases b with
  | mk data =>
    cases data with
    | nil => rfl
    | cons c cs => simp [String.length] at hb

/-- C1 counterexample: `"ghost"` is not a registered client, yet
`authenticate "ghost" ""` grants the full permission set instead of the
`None` the claim requires; likewise the registered `"client1"` presented
with the empty string (which is not its registered key) is granted the
full permission set instead of being rejected. -/
theorem authenticate_claim_counterexample :
    lookupClient "ghost" = none ∧
    authenticate "ghost" "" = some ["read", "write", "subscribe"] ∧
    "" ≠ "sk_client1_12345abcde" ∧
    authenticate "client1" "" = some ["read", "write", "subscribe"] := by
  decide

/-- C1 (amended): for a non-empty api_key, `authenticate` returns the
registered permission set exactly on a character-for-character key match
and `none` for an unknown client or a mismatched key; for an empty
api_key it returns the full permission set `["read","write","subscribe"]`
for every client_id (development-mode bypass). -/
theorem authenticate_amended (client_id api_key : String) :
    (authenticate client_id "" = some ["read", "write", "subscribe"]) ∧
    (api_key ≠ "" → lookupClient client_id = none →
      authenticate client_id api_key = none) ∧
    (∀ key permissions, api_key ≠ "" →
      lookupClient client_id = some (key, permissions) →
      (api_key = key → authenticate client_id api_key = some permissions) ∧
      (api_key ≠ key → authenticate client_id api_key = none)) := by
  refine ⟨by simp [authenticate], ?_, ?_⟩
  · intro hne hnone
    simp [authenticate, hne, hnone]
  · intro key permissions hne hfound
    constructor
    · intro hkey
      subst hkey
      simp [authenticate, hne, hfound]
    · intro hkey
      simp [authenticate, hne, hfound]
      intro hk
      exact absurd hk.symm hkey

/-- C1 witness: the amended theorem applied to concrete clients and keys. -/
theorem authenticate_amended_witness :
    authenticate "ghost" "" = some ["read", "write", "subscribe"] ∧
    authenticate "ghost" "sk_whatever" = none ∧
    authenticate "client1" "sk_client1_12345abcde" = some ["read", "write", "subscribe"] ∧
    authenticate "client2" "wrong_key" = none := by
  refine ⟨(authenticate_amended "ghost" "").1, ?_, ?_, ?_⟩
  · exact (authenticate_amended "ghost" "sk_whatever").2.1 (by decide) (by decide)
  · exact ((authenticate_amended "client1" "sk_client1_12345abcde").2.2
      "sk_client1_12345abcde" ["read", "write", "subscribe"] (by decide) (by decide)).1
      (by decide)
  · exact ((authenticate_amended "client2" "wrong_key").2.2
      "sk_client2_67890fghij" ["read"] (by decide) (by decide)).2 (by decide)

/-- C2 counterexample.  First input: `"ghost"` is unregistered, the
signature `"bogus"` matches no HMAC and the timestamp is 1000 seconds
stale, yet `validate_signature` accepts (development-mode bypass) — the
claim requires both conditions to cause rejection.  Second input: a
registered client with the correctly recomputed signature at
`|now - timestamp| = 300` is rejected, although the claim's window
`|now - timestamp| ≤ 300` accepts it (the code uses a strict `< 300`). -/
theorem validate_signature_claim_counterexample :
    lookupClient "ghost" = none ∧
    (1000 - (0 : Int)).natAbs > 300 ∧
    validate_signature dummyHmac 1000 "ghost" "m1" 0 "bogus" = true ∧
    (300 - (0 : Int)).natAbs ≤ 300 ∧
    validate_signature dummyHmac 300 "client1" "m1" 0
      (dummyHmac "sk_client1_12345abcde" "m1:client1:0") = false := by
  decide

/-- C2 (amended): for a client_id registered in the key table and a
non-empty signature, `validate_signature` returns true iff the signature
equals HMAC-SHA256 keyed by the client's api_key over
`"{method_id}:{client_id}:{timestamp}"` AND `|now - timestamp| < 300`
(each condition independently causes rejection); an empty signature or an
unregistered client_id bypasses validation and always returns true. -/
theorem validate_signature_amended (hmacSha256 : String → String → String)
    (now : Int) (client_id method_id : String) (timestamp : Int) (signature : String) :
    (∀ key permissions, lookupClient client_id = some (key, permissions) →
      signature ≠ "" →
      (validate_signature hmacSha256 now client_id method_id timestamp signature = true ↔
        signature = hmacSha256 key
          (method_id ++ ":" ++ client_id ++ ":" ++ toString timestamp) ∧
        (now - timestamp).natAbs < 300)) ∧
    (validate_signature hmacSha256 now client_id method_id timestamp "" = true) ∧
    (lookupClient client_id = none →
      validate_signature hmacSha256 now client_id method_id timestamp signature = true) := by
  refine ⟨?_, by simp [validate_signature], ?_⟩
  · intro key permissions hfound hne
    simp [validate_signature, hne, hfound]
  · intro hnone
    simp [validate_signature, hnone]

/-- C2 witness: the amended theorem applied to the registered `"client1"`
with a fresh, correctly signed request (accepted), the same request one
byte off in the signature (rejected), the same request 300 seconds stale
(rejected), and to the unregistered `"ghost"` (bypass). -/
theorem validate_signature_amended_witness :
    validate_signature dummyHmac 100 "client1" "m" 0
      (dummyHmac "sk_client1_12345abcde" "m:client1:0") = true ∧
    validate_signature dummyHmac 100 "client1" "m" 0
      ("X" ++ dummyHmac "sk_client1_12345abcde" "m:client1:0") = false ∧
    validate_signature dummyHmac 300 "client1" "m" 0
      (dummyHmac "sk_client1_12345abcde" "m:client1:0") = false ∧
    validate_signature dummyHmac 100 "ghost" "m" 0 "anything" = true := by
  have h1 := (validate_signature_amended dummyHmac 100 "client1" "m" 0
    (dummyHmac "sk_client1_12345abcde" "m:client1:0")).1
    "sk_client1_12345abcde" ["read", "write", "subscribe"] (by decide) (by decide)
  have h2 := (validate_signature_amended dummyHmac 100 "client1" "m" 0
    ("X" ++ dummyHmac "sk_client1_12345abcde" "m:client1:0")).1
    "sk_client1_12345abcde" ["read", "write", "subscribe"] (by decide) (by decide)
  have h3 := (validate_signature_amended dummyHmac 300 "client1" "m" 0
    (dummyHmac "sk_client1_12345abcde" "m:client1:0")).1
    "sk_client1_12345abcde" ["read", "write", "subscribe"] (by decide) (by decide)
  have h4 := (validate_signature_amended dummyHmac 100 "ghost" "m" 0 "anything").2.2
    (by decide)
  refine ⟨h1.mpr ⟨by decide, by decide⟩, ?_, ?_, h4⟩
  · rw [Bool.eq_false_iff]
    intro hcontra
    have := h2.mp hcontra
    exact absurd this.1 (by decide)
  · rw [Bool.eq_false_iff]
    intro hcontra
    have := h3.mp hcontra
    exact absurd this.2 (by decide)

/-- C3: the dispatch pipeline of `InvokeMethod` is ordered — an
authentication failure yields UNAUTHORIZED; otherwise a signature failure
yields UNAUTHORIZED; otherwise an unknown method_id yields NOT_FOUND;
otherwise a failing permission check yields UNAUTHORIZED with an error
message naming the required permission.  Each hypothesis list records
that the earlier checks passed. -/
theorem invoke_method_pipeline (hmacSha256 : String → String → String) (now : Int)
    (methods : List (String × MethodInfo)) (request : MethodRequest) :
    (authenticate request.client_id request.api_key = none →
      InvokeMethod hmacSha256 now methods request =
        { request_id := request.request_id, status := Status.UNAUTHORIZED,
          result := none, error_message := "Authentication failed" }) ∧
    (authenticate request.client_id request.api_key ≠ none →
      validate_signature hmacSha256 now request.client_id request.method_id
        request.timestamp request.signature = false →
      InvokeMethod hmacSha256 now methods request =
        { request_id := request.request_id, status := Status.UNAUTHORIZED,
          result := none, error_message := "Invalid request signature" }) ∧
    (authenticate request.client_id request.api_key ≠ none →
      validate_signature hmacSha256 now request.client_id request.method_id
        request.timestamp request.signature = true →
      lookupMethod methods request.method_id = none →
      InvokeMethod hmacSha256 now methods request =
        { request_id := request.request_id, status := Status.NOT_FOUND,
          result := none,
          error_message := "Method " ++ request.method_id ++ " not found" }) ∧
    (∀ method_info,
      authenticate request.client_id request.api_key ≠ none →
      validate_signature hmacSha256 now request.client_id request.method_id
        request.timestamp request.signature = true →
      lookupMethod methods request.method_id = some method_info →
      has_permission request.client_id method_info.required_permission = false →
      InvokeMethod hmacSha256 now methods request =
        { request_id := request.request_id, status := Status.UNAUTHORIZED,
          result := none,
          error_message := "Permission denied: " ++ method_info.required_permission
            ++ " required" }) := by
  refine ⟨?_, ?_, ?_, ?_⟩
  · intro hauth
    simp [InvokeMethod, hauth]
  · intro hauth hsig
    cases hperm : authenticate request.client_id request.api_key with
    | none => exact absurd hperm hauth
    | some p => simp [InvokeMethod, hperm, hsig]
  · intro hauth hsig hmeth
    cases hperm : authenticate request.client_id request.api_key with
    | none => exact absurd hperm hauth
    | some p => simp [InvokeMethod, hperm, hsig, hmeth]
  · intro method_info hauth hsig hmeth hnoperm
    cases hperm : authenticate request.client_id request.api_key with
    | none => exact absurd hperm hauth
    | some p => simp [InvokeMethod, hperm, hsig, hmeth, hnoperm]

/-- C3 witness: the pipeline theorem applied to four concrete requests,
one stopping at each gate (bad key; bad signature; unknown method; missing
`"write"` permission for `"client2"`). -/
theorem invoke_method_pipeline_witness :
    InvokeMethod dummyHmac 100 witnessMethods
      { method_id := "m", parameters := "p", request_id := "r1",
        client_id := "client1", api_key := "wrong", timestamp := 90,
        signature := "s" } =
      { request_id := "r1", status := Status.UNAUTHORIZED, result := none,
        error_message := "Authentication failed" } ∧
    InvokeMethod dummyHmac 100 witnessMethods
      { method_id := "m", parameters := "p", request_id := "r2",
        client_id := "client1", api_key := "sk_client1_12345abcde",
        timestamp := 90, signature := "badsig" } =
      { request_id := "r2", status := Status.UNAUTHORIZED, result := none,
        error_message := "Invalid request signature" } ∧
    InvokeMethod dummyHmac 100 witnessMethods
      { method_id := "nope", parameters := "p", request_id := "r3",
        client_id := "client1", api_key := "sk_client1_12345abcde",
        timestamp := 90, signature := "" } =
      { request_id := "r3", status := Status.NOT_FOUND, result := none,
        error_message := "Method " ++ "nope" ++ " not found" } ∧
    InvokeMethod dummyHmac 100 witnessMethods
      { method_id := "m", parameters := "p", request_id := "r4",
        client_id := "client2", api_key := "sk_client2_67890fghij",
        timestamp := 90, signature := "" } =
      { request_id := "r4", status := Status.UNAUTHORIZED, result := none,
        error_message := "Permission denied: " ++ "write" ++ " required" } := by
  refine ⟨?_, ?_, ?_, ?_⟩
  · exact (invoke_method_pipeline dummyHmac 100 witnessMethods _).1 (by decide)
  · exact (invoke_method_pipeline dummyHmac 100 witnessMethods _).2.1
      (by decide) (by decide)
  · exact (invoke_method_pipeline dummyHmac 100 witnessMethods _).2.2.1
      (by decide) (by decide) rfl
  · exact (invoke_method_pipeline dummyHmac 100 witnessMethods _).2.2.2
      { handler := constHandler "42", required_permission := "write" }
      (by decide) (by decide) rfl (by decide)

/-- C4: when all four gates pass and the guarded decode/execute block
raises an exception with message `e`, `InvokeMethod` returns an ERROR
response whose error_message contains `e` — the exception is absorbed at
the dispatch boundary (`InvokeMethod` is a total function into
`MethodResponse`, so nothing propagates). -/
theorem handler_exception_contained (hmacSha256 : String → String → String)
    (now : Int) (methods : List (String × MethodInfo)) (request : MethodRequest)
    (method_info : MethodInfo) (e : String) :
    authenticate request.client_id request.api_key ≠ none →
    validate_signature hmacSha256 now request.client_id request.method_id
      request.timestamp request.signature = true →
    lookupMethod methods request.method_id = some method_info →
    has_permission request.client_id method_info.required_permission = true →
    method_info.handler request.parameters request.client_id = Except.error e →
    InvokeMethod hmacSha256 now methods request =
      { request_id := request.request_id, status := Status.ERROR,
        result := none,
        error_message := "Error executing method: " ++ e } := by
  intro hauth hsig hmeth hperm hraise
  cases hp : authenticate request.client_id request.api_key with
  | none => exact absurd hp hauth
  | some p => simp [InvokeMethod, hp, hsig, hmeth, hperm, hraise]

/-- C4 witness: the registered `"boom"` handler raises `"kaboom"`; the
dispatch returns ERROR with that message. -/
theorem handler_exception_contained_witness :
    InvokeMethod dummyHmac 100 witnessMethods
      { method_id := "boom", parameters := "p", request_id := "r5",
        client_id := "client1", api_key := "sk_client1_12345abcde",
        timestamp := 90, signature := "" } =
      { request_id := "r5", status := Status.ERROR, result := none,
        error_message := "Error executing method: " ++ "kaboom" } := by
  exact handler_exception_contained dummyHmac 100 witnessMethods _
    { handler := raisingHandler "kaboom", required_permission := "read" } "kaboom"
    (by decide) (by decide) rfl (by decide) rfl

/-- C5: every response of `InvokeMethod` has status SUCCESS iff its result
field is populated and its error_message is empty, and every non-SUCCESS
response carries no result and a non-empty error_message. -/
theorem response_status_invariant (hmacSha256 : String → String → String)
    (now : Int) (methods : List (String × MethodInfo)) (request : MethodRequest) :
    ((InvokeMethod hmacSha256 now methods request).status = Status.SUCCESS ↔
      (InvokeMethod hmacSha256 now methods request).result.isSome = true ∧
      (InvokeMethod hmacSha256 now methods request).error_message = "") ∧
    ((InvokeMethod hmacSha256 now methods request).status ≠ Status.SUCCESS →
      (InvokeMethod hmacSha256 now methods request).result = none ∧
      (InvokeMethod hmacSha256 now methods request).error_message ≠ "") := by
  unfold InvokeMethod
  cases authenticate request.client_id request.api_key with
  | none => simp
  | some p =>
    cases hsig : validate_signature hmacSha256 now request.client_id
        request.method_id request.timestamp request.signature with
    | false => simp
    | true =>
      cases lookupMethod methods request.method_id with
      | none =>
        simp
        exact append_ne_empty_of_right _ " not found" (by decide)
      | some method_info =>
        cases hperm : has_permission request.client_id method_info.required_permission with
        | false =>
          simp [hperm]
          exact append_ne_empty_of_right _ " required" (by decide)
        | true =>
          cases hh : method_info.handler request.parameters request.client_id with
          | ok r => simp [hperm, hh]
          | error e =>
            simp [hperm, hh]
            exact append_ne_empty_of_left "Error executing method: " e (by decide)

/-- C5 witness: the invariant instantiated at a SUCCESS response (both
directions of the iff) and at an UNAUTHORIZED response. -/
theorem response_status_invariant_witness :
    ((InvokeMethod dummyHmac 100 witnessMethods
      { method_id := "m", parameters := "p", request_id := "r6",
        client_id := "ghost", api_key := "", timestamp := 90,
        signature := "" }).result.isSome = true ∧
     (InvokeMethod dummyHmac 100 witnessMethods
      { method_id := "m", parameters := "p", request_id := "r6",
        client_id := "ghost", api_key := "", timestamp := 90,
        signature := "" }).error_message = "") ∧
    ((InvokeMethod dummyHmac 100 witnessMethods
      { method_id := "m", parameters := "p", request_id := "r7",
        client_id := "client1", api_key := "wrong", timestamp := 90,
        signature := "s" }).result = none ∧
     (InvokeMethod dummyHmac 100 witnessMethods
      { method_id := "m", parameters := "p", request_id := "r7",
        client_id := "client1", api_key := "wrong", timestamp := 90,
        signature := "s" }).error_message ≠ "") := by
  constructor
  · exact (response_status_invariant dummyHmac 100 witnessMethods _).1.mp (by decide)
  · exact (response_status_invariant dummyHmac 100 witnessMethods _).2 (by decide)

/-- Helper: the three-disjunct characterization of the pattern matcher. -/
theorem pattern_matches_characterization (event_type pattern : List Char) :
    server_pattern_matches event_type pattern = true ↔
      pattern = ['*'] ∨
      (['*'] <:+ pattern ∧ pattern.dropLast <+: event_type) ∨
      event_type = pattern := by
  unfold server_pattern_matches
  by_cases hp : pattern = ['*']
  · simp [hp]
  · by_cases hs : List.isSuffixOf ['*'] pattern = true
    · rw [if_neg hp, if_pos hs, List.isPrefixOf_iff_prefix]
      have hsuf : ['*'] <:+ pattern := List.isSuffixOf_iff_suffix.mp hs
      constructor
      · intro h
        exact Or.inr (Or.inl ⟨hsuf, h⟩)
      · rintro (h | ⟨_, h⟩ | rfl)
        · exact absurd h hp
        · exact h
        · obtain ⟨q, rfl⟩ := hsuf
          rw [List.dropLast_concat]
          exact List.prefix_append q ['*']
    · rw [if_neg hp, if_neg hs, beq_iff_eq]
      have hnsuf : ¬ (['*'] <:+ pattern) := fun h =>
        hs (List.isSuffixOf_iff_suffix.mpr h)
      constructor
      · intro h
        exact Or.inr (Or.inr h)
      · rintro (h | ⟨h, _⟩ | h)
        · exact absurd h hp
        · exact absurd h hnsuf
        · exact h

/-- C6: the server and client pattern matchers agree everywhere; a pattern
matches an event type exactly when it is `"*"`, or it ends in `"*"` and the
event type starts with the pattern minus its trailing `"*"`, or the event
type equals the pattern; in particular `"sys.*"` matches `"sys.start"` but
not `"system.start"`, and `"sys.start"` matches only itself. -/
theorem pattern_matches_spec :
    (∀ event_type pattern : List Char,
      server_pattern_matches event_type pattern =
        client_pattern_matches event_type pattern) ∧
    (∀ event_type pattern : List Char,
      server_pattern_matches event_type pattern = true ↔
        pattern = ['*'] ∨
        (['*'] <:+ pattern ∧ pattern.dropLast <+: event_type) ∨
        event_type = pattern) ∧
    server_pattern_matches "sys.start".toList "sys.*".toList = true ∧
    server_pattern_matches "system.start".toList "sys.*".toList = false ∧
    (∀ event_type : List Char,
      server_pattern_matches event_type "sys.start".toList = true ↔
        event_type = "sys.start".toList) := by
  refine ⟨fun _ _ => rfl, pattern_matches_characterization, by decide, by decide, ?_⟩
  intro event_type
  rw [pattern_matches_characterization]
  constructor
  · rintro (h | ⟨h, _⟩ | h)
    · exact absurd h (by decide)
    · exact absurd h (by decide)
    · exact h
  · intro h
    exact Or.inr (Or.inr h)

/-- C7 counterexample: with `failure_threshold = 2`, the sequence
failure (t=100), success (t=101), failure (t=102) leaves the breaker OPEN,
although no two failures were consecutive — the interleaved success did
not reset the failure count (it is still 1 after the success). -/
theorem circuit_breaker_claim_counterexample :
    (CircuitBreaker.runCalls
      { failure_threshold := 2, reset_timeout := 30, failure_count := 0,
        state := CBState.CLOSED, last_failure_time := 0 }
      [(100, false), (101, true)]).failure_count = 1 ∧
    (CircuitBreaker.runCalls
      { failure_threshold := 2, reset_timeout := 30, failure_count := 0,
        state := CBState.CLOSED, last_failure_time := 0 }
      [(100, false), (101, true), (102, false)]).state = CBState.OPEN := by
  decide

/-- C7 (amended): the breaker moves to OPEN once its cumulative failure
count reaches `failure_threshold`; a success resets the count only in
HALF_OPEN — a success in CLOSED leaves the count unchanged, so
non-consecutive failures also trip the breaker.  While OPEN, a call at
most `reset_timeout` seconds after the last failure raises immediately
without invoking the wrapped function; strictly later than that the call
is let through as a HALF_OPEN trial whose success moves to CLOSED with
the count reset and whose failure returns to OPEN. -/
theorem circuit_breaker_amended (cb : CircuitBreaker) (now : Int) (s : Bool) :
    (cb.state = CBState.CLOSED →
      CircuitBreaker.execute cb now true = (CBResult.succeeded, cb)) ∧
    (cb.state = CBState.CLOSED →
      CircuitBreaker.execute cb now false =
        (CBResult.reRaised,
          { cb with
            failure_count := cb.failure_count + 1
            last_failure_time := now
            state := if cb.failure_threshold ≤ cb.failure_count + 1 then
              CBState.OPEN else CBState.CLOSED })) ∧
    (cb.state = CBState.OPEN → now - cb.last_failure_time ≤ cb.reset_timeout →
      CircuitBreaker.execute cb now s = (CBResult.circuitOpen, cb)) ∧
    (cb.state = CBState.OPEN → cb.reset_timeout < now - cb.last_failure_time →
      CircuitBreaker.execute cb now true =
        (CBResult.succeeded,
          { cb with state := CBState.CLOSED, failure_count := 0 })) ∧
    (cb.state = CBState.OPEN → cb.reset_timeout < now - cb.last_failure_time →
      cb.failure_threshold ≤ cb.failure_count + 1 →
      CircuitBreaker.execute cb now false =
        (CBResult.reRaised,
          { cb with
            state := CBState.OPEN
            failure_count := cb.failure_count + 1
            last_failure_time := now })) := by
  refine ⟨?_, ?_, ?_, ?_, ?_⟩
  · intro hc
    simp [CircuitBreaker.execute, CircuitBreaker.attemptCall, hc]
  · intro hc
    simp [CircuitBreaker.execute, CircuitBreaker.attemptCall, hc]
  · intro ho ht
    simp [CircuitBreaker.execute, ho, not_lt.mpr ht]
  · intro ho ht
    simp [CircuitBreaker.execute, CircuitBreaker.attemptCall, ho, ht]
  · intro ho ht hth
    simp [CircuitBreaker.execute, CircuitBreaker.attemptCall, ho, ht, hth]

/-- C7 witness: the amended theorem applied to concrete breakers — a
CLOSED success (count preserved), a CLOSED failure reaching the
threshold, an OPEN call inside the window (raises without calling), an
expired-window HALF_OPEN trial success, and a trial failure. -/
theorem circuit_breaker_amended_witness :
    CircuitBreaker.execute
      { failure_threshold := 2, reset_timeout := 30, failure_count := 1,
        state := CBState.CLOSED, last_failure_time := 50 } 60 true =
      (CBResult.succeeded,
        { failure_threshold := 2, reset_timeout := 30, failure_count := 1,
          state := CBState.CLOSED, last_failure_time := 50 }) ∧
    CircuitBreaker.execute
      { failure_threshold := 2, reset_timeout := 30, failure_count := 1,
        state := CBState.CLOSED, last_failure_time := 50 } 60 false =
      (CBResult.reRaised,
        { failure_threshold := 2, reset_timeout := 30, failure_count := 2,
          state := CBState.OPEN, last_failure_time := 60 }) ∧
    CircuitBreaker.execute
      { failure_threshold := 2, reset_timeout := 30, failure_count := 2,
        state := CBState.OPEN, last_failure_time := 60 } 90 true =
      (CBResult.circuitOpen,
        { failure_threshold := 2, reset_timeout := 30, failure_count := 2,
          state := CBState.OPEN, last_failure_time := 60 }) ∧
    CircuitBreaker.execute
      { failure_threshold := 2, reset_timeout := 30, failure_count := 2,
        state := CBState.OPEN, last_failure_time := 60 } 91 true =
      (CBResult.succeeded,
        { failure_threshold := 2, reset_timeout := 30, failure_count := 0,
          state := CBState.CLOSED, last_failure_time := 60 }) ∧
    CircuitBreaker.execute
      { failure_threshold := 2, reset_timeout := 30, failure_count := 2,
        state := CBState.OPEN, last_failure_time := 60 } 91 false =
      (CBResult.reRaised,
        { failure_threshold := 2, reset_timeout := 30, failure_count := 3,
          state := CBState.OPEN, last_failure_time := 91 }) := by
  refine ⟨?_, ?_, ?_, ?_, ?_⟩
  · exact (circuit_breaker_amended _ 60 true).1 rfl
  · have h := (circuit_breaker_amended
      { failure_threshold := 2, reset_timeout := 30, failure_count := 1,
        state := CBState.CLOSED, last_failure_time := 50 } 60 true).2.1 rfl
    simpa using h
  · exact (circuit_breaker_amended _ 90 true).2.2.1 rfl (by decide)
  · exact (circuit_breaker_amended _ 91 true).2.2.2.1 rfl (by decide)
  · have h := (circuit_breaker_amended
      { failure_threshold := 2, reset_timeout := 30, failure_count := 2,
        state := CBState.OPEN, last_failure_time := 60 } 91 true).2.2.2.2
      rfl (by decide) (by decide)
    simpa using h

/-- C8: a first-call transport failure marks the connector disconnected
and triggers exactly one reconnect; the request is resent at most once
(exactly once when the reconnect succeeds, never when it fails), a second
transport failure or the reconnect failure is surfaced to the caller, and
a request answered with a response — whatever its status, including
UNAUTHORIZED and NOT_FOUND — is never retried and triggers no
reconnect. -/
theorem send_method_request_retry_policy (stubResponses : Nat → RpcOutcome)
    (reconnectOk : Bool) :
    (∀ r, stubResponses 0 = RpcOutcome.response r →
      (send_method_request stubResponses reconnectOk).invoke_calls = 1 ∧
      (send_method_request stubResponses reconnectOk).reconnect_calls = 0 ∧
      (r.status ≠ Status.SUCCESS →
        (send_method_request stubResponses reconnectOk).outcome =
          SendOutcome.raisedException (errMsgOf r))) ∧
    (∀ e, stubResponses 0 = RpcOutcome.transportError e →
      (send_method_request stubResponses reconnectOk).marked_disconnected = true ∧
      (send_method_request stubResponses reconnectOk).reconnect_calls = 1 ∧
      (send_method_request stubResponses reconnectOk).invoke_calls ≤ 2 ∧
      (reconnectOk = false →
        (send_method_request stubResponses reconnectOk).invoke_calls = 1 ∧
        (send_method_request stubResponses reconnectOk).outcome =
          SendOutcome.raisedException ("RPC failed: " ++ e)) ∧
      (reconnectOk = true →
        (send_method_request stubResponses reconnectOk).invoke_calls = 2 ∧
        ∀ e2, stubResponses 1 = RpcOutcome.transportError e2 →
          (send_method_request stubResponses reconnectOk).outcome =
            SendOutcome.raisedRpcError e2)) := by
  constructor
  · intro r h0
    unfold send_method_request
    rw [h0]
    by_cases hs : r.status = Status.SUCCESS
    · simp [hs]
    · simp [hs]
  · intro e h0
    unfold send_method_request
    rw [h0]
    cases reconnectOk with
    | false => simp
    | true =>
      cases h1 : stubResponses 1 with
      | response r =>
        by_cases hs : r.status = Status.SUCCESS
        · simp [hs, h1]
        · simp [hs, h1]
      | transportError e2 => simp [h1]

/-- C8 witness: the retry policy applied to concrete transports — an
UNAUTHORIZED response (one call, no reconnect, error surfaced), a
transport failure with a failing reconnect, and two transport failures
with a successful reconnect. -/
theorem send_method_request_retry_policy_witness :
    (send_method_request (fun _ => RpcOutcome.response
      { request_id := "r", status := Status.UNAUTHORIZED, result := none,
        error_message := "Authentication failed" }) true).invoke_calls = 1 ∧
    (send_method_request (fun _ => RpcOutcome.response
      { request_id := "r", status := Status.UNAUTHORIZED, result := none,
        error_message := "Authentication failed" }) true).reconnect_calls = 0 ∧
    (send_method_request (fun _ => RpcOutcome.response
      { request_id := "r", status := Status.UNAUTHORIZED, result := none,
        error_message := "Authentication failed" }) true).outcome =
      SendOutcome.raisedException "Authentication failed" ∧
    (send_method_request (fun _ => RpcOutcome.transportError "refused") false).outcome =
      SendOutcome.raisedException ("RPC failed: " ++ "refused") ∧
    (send_method_request (fun _ => RpcOutcome.transportError "refused") true).invoke_calls = 2 ∧
    (send_method_request (fun _ => RpcOutcome.transportError "refused") true).outcome =
      SendOutcome.raisedRpcError "refused" := by
  have ha := (send_method_request_retry_policy (fun _ => RpcOutcome.response
    { request_id := "r", status := Status.UNAUTHORIZED, result := none,
      error_message := "Authentication failed" }) true).1
    { request_id := "r", status := Status.UNAUTHORIZED, result := none,
      error_message := "Authentication failed" } rfl
  have hb := (send_method_request_retry_policy
    (fun _ => RpcOutcome.transportError "refused") false).2 "refused" rfl
  have hc := (send_method_request_retry_policy
    (fun _ => RpcOutcome.transportError "refused") true).2 "refused" rfl
  refine ⟨ha.1, ha.2.1, ?_, (hb.2.2.2.1 rfl).2, (hc.2.2.2.2 rfl).1, ?_⟩
  · have := ha.2.2 (by decide)
    simpa [errMsgOf] using this
  · exact (hc.2.2.2.2 rfl).2 "refused" rfl

/-- Helper: the reconnect loop calls `connect()` at most `remaining`
times. -/
theorem reconnect_loop_calls_le (connectResults : Nat → Bool) :
    ∀ attempt remaining,
      (reconnect_loop connectResults attempt remaining).2.1 ≤ remaining := by
  intro attempt remaining
  induction remaining generalizing attempt with
  | zero => simp [reconnect_loop]
  | succ n ih =>
    unfold reconnect_loop
    by_cases h : connectResults attempt = true
    · simp [h]
    · simp [h]
      exact ih (attempt + 1)

/-- C9: the backoff structure of `reconnect` — but the jitter expression
`backoff * 0.1 * (2 * (0.5 - 0.5))` of the source is identically zero
(the code's own comment announces a ±10% jitter), so every wait is
exactly `min(2^attempt, 60)` seconds with no jitter; `connect()` runs at
most `reconnect_attempts` times and the call reports failure after the
final failed attempt (shown concretely for five all-failing attempts,
with the exact sleep sequence 1, 2, 4, 8, 16). -/
theorem reconnect_backoff_jitter_is_zero :
    (∀ b : ℚ, jitter_seconds b = 0) ∧
    (∀ attempt : Nat, sleep_seconds attempt = ((min (2 ^ attempt) 60 : Nat) : ℚ)) ∧
    reconnect (fun _ => false) 5 = (false, 5, [1, 2, 4, 8, 16]) ∧
    (∀ connectResults reconnect_attempts,
      (reconnect connectResults reconnect_attempts).2.1 ≤ reconnect_attempts) := by
  have hj : ∀ b : ℚ, jitter_seconds b = 0 := by
    intro b
    simp [jitter_seconds]
  have hs : ∀ attempt : Nat, sleep_seconds attempt = ((min (2 ^ attempt) 60 : Nat) : ℚ) := by
    intro attempt
    simp [sleep_seconds, hj, backoff_seconds]
  refine ⟨hj, hs, ?_, ?_⟩
  · simp [reconnect, reconnect_loop, hs]
  · intro connectResults reconnect_attempts
    exact reconnect_loop_calls_le connectResults 0 reconnect_attempts

/-- C10: every `ServerConnection` built by `MultiServerClient` carries
`api_key = None`, so every request it constructs has `api_key = ""` and a
signature HMAC-keyed by the empty string, and the server's `authenticate`
then grants the identical full permission set `["read","write","subscribe"]`
to every client_id — the outcome does not depend on the caller's identity
or credentials on this path. -/
theorem multi_client_anonymous_full_permissions
    (hmacSha256 : String → String → String)
    (client_id method_id parameters request_id : String) (timestamp : Int) :
    (server_connection_build_request hmacSha256 multi_server_client_api_key
      client_id method_id parameters request_id timestamp).api_key = "" ∧
    (server_connection_build_request hmacSha256 multi_server_client_api_key
      client_id method_id parameters request_id timestamp).signature =
      hmacSha256 ""
        (method_id ++ ":" ++ client_id ++ ":" ++ toString timestamp) ∧
    authenticate client_id
      (server_connection_build_request hmacSha256 multi_server_client_api_key
        client_id method_id parameters request_id timestamp).api_key =
      some ["read", "write", "subscribe"] ∧
    (∀ other_client_id : String,
      authenticate other_client_id "" = authenticate client_id "") := by
  refine ⟨rfl, rfl, ?_, ?_⟩
  · simp [server_connection_build_request, multi_server_client_api_key, authenticate]
  · intro other_client_id
    simp [authenticate]
